import Mathlib

/-!
Verification of the financial-sheet analysis core of `src/tools/sheet.py`
(class `SheetAnalyzer`).  Cell text is modelled as `String` / `List Char`,
numeric values as `ℚ` (the Python code uses IEEE floats; every claim checked
here is either branch-structural or uses values on which float arithmetic is
exact, and threshold comparisons such as `count / total > 0.3` are modelled
by the equivalent integer comparisons, which agree with the float comparison
for all realistic counts).  All string primitives (strip, lower, replace,
split, substring search and the specific regular expressions appearing in
the source) are implemented below as structurally recursive functions on
`List Char`, so that every definition evaluates inside the kernel.
-/

namespace SheetPy

/-! ### Character helpers (ASCII models of the Python `str` predicates) -/

/-- Python whitespace characters (`\s` over the ASCII range). -/
def pyIsSpace (c : Char) : Bool :=
  c = ' ' || c = '\t' || c = '\n' || c = '\x0d' || c = '\x0c' || c = '\x0b'

def isUpperAZ (c : Char) : Bool := 'A' ≤ c && c ≤ 'Z'

def isLowerAZ (c : Char) : Bool := 'a' ≤ c && c ≤ 'z'

def isDigit09 (c : Char) : Bool := '0' ≤ c && c ≤ '9'

/-- ASCII lower-casing, the effect of Python `str.lower` on the cells used here. -/
def asciiLower (c : Char) : Char :=
  if isUpperAZ c then Char.ofNat (c.toNat + 32) else c

/-- ASCII upper-casing, the effect of Python `str.upper` on the cells used here. -/
def asciiUpper (c : Char) : Char :=
  if isLowerAZ c then Char.ofNat (c.toNat - 32) else c

/-! ### List-of-characters helpers -/

def lowerL (l : List Char) : List Char := l.map asciiLower

def upperL (l : List Char) : List Char := l.map asciiUpper

/-- Python `str.strip()`: drop whitespace from both ends. -/
def trimL (l : List Char) : List Char :=
  ((l.dropWhile pyIsSpace).reverse.dropWhile pyIsSpace).reverse

def listStartsWith (pat l : List Char) : Bool := pat.isPrefixOf l

def listEndsWith (pat l : List Char) : Bool := pat.reverse.isPrefixOf l.reverse

/-- Substring containment, the semantics of Python `needle in hay`. -/
def containsL (needle : List Char) : List Char → Bool
  | [] => needle.isEmpty
  | c :: rest => needle.isPrefixOf (c :: rest) || containsL needle rest

/-- Python `s.replace(c, '')` for a single-character needle. -/
def removeChar (c : Char) (l : List Char) : List Char := l.filter (fun d => d ≠ c)

/-- Python `s[1:-1]`. -/
def dropFirstLast (l : List Char) : List Char := (l.drop 1).dropLast

/-- Helper for `splitWs`: `acc` is the current word, reversed. -/
def splitWsAux : List Char → List Char → List (List Char)
  | [], acc => if acc = [] then [] else [acc.reverse]
  | c :: rest, acc =>
    if pyIsSpace c then
      if acc = [] then splitWsAux rest [] else acc.reverse :: splitWsAux rest []
    else splitWsAux rest (c :: acc)

/-- Python `str.split()` (split on whitespace runs, no empty pieces). -/
def splitWs (l : List Char) : List (List Char) := splitWsAux l []

/-- Digits of a numeral to its value (`int(ds)` on a nonempty digit run). -/
def natFromDigits (ds : List Char) : ℕ :=
  ds.foldl (fun acc d => 10 * acc + (d.toNat - 48)) 0

/-! ### Python `float(...)` (restricted grammar)

`float` accepts optional surrounding whitespace, an optional sign, a decimal
numeral with optional fractional part and optional exponent.  (Underscored
numerals, `inf` and `nan` are accepted by Python but never occur in the cells
relevant to the claims; they are outside this model.) -/

def mkDecimal (sgn : ℚ) (ip fp : List Char) : ℚ :=
  sgn * ((natFromDigits ip : ℚ) + (natFromDigits fp : ℚ) / (10 : ℚ) ^ fp.length)

/-- Parse an optional exponent tail (`e`/`E` sign? digits) and finish. -/
def parseExpTail (base : ℚ) : List Char → Option ℚ
  | [] => some base
  | e :: r =>
    if e = 'e' || e = 'E' then
      let (esgn, r1) : ℚ × List Char :=
        match r with
        | '+' :: r' => (1, r')
        | '-' :: r' => (-1, r')
        | r' => (1, r')
      let ed := r1.takeWhile isDigit09
      if ed ≠ [] ∧ r1.dropWhile isDigit09 = [] then
        if esgn = 1 then some (base * (10 : ℚ) ^ natFromDigits ed)
        else some (base / (10 : ℚ) ^ natFromDigits ed)
      else none
    else none

def parseDecimalCore (l : List Char) : Option ℚ :=
  let (sgn, l1) : ℚ × List Char :=
    match l with
    | '+' :: r => (1, r)
    | '-' :: r => (-1, r)
    | r => (1, r)
  let ip := l1.takeWhile isDigit09
  let r1 := l1.dropWhile isDigit09
  match r1 with
  | '.' :: r2 =>
    let fp := r2.takeWhile isDigit09
    let r3 := r2.dropWhile isDigit09
    if ip = [] ∧ fp = [] then none
    else parseExpTail (mkDecimal sgn ip fp) r3
  | r2 =>
    if ip = [] then none else parseExpTail (mkDecimal sgn ip []) r2

/-- Python `float(s)` on the grammar above, `none` for `ValueError`. -/
def pyFloat? (l : List Char) : Option ℚ := parseDecimalCore (trimL l)

/-! ### The regex fallback

`re.search(r'[-+]?\d*\.?\d+', s)`: leftmost match of an optional sign, a
digit run, an optional point, and a final digit run.  At a fixed position the
backtracking engine yields: `d1 "." d2` when the maximal digit run `d1` is
followed by `.` and at least one digit, otherwise `d1` alone when `d1` is
nonempty, otherwise `". " d2` is impossible (empty `d1` needs `. d2`). -/

/-- Try the numeric-substring match anchored at the head (after the sign). -/
def tryNumHere (l : List Char) : Option ℚ :=
  let d1 := l.takeWhile isDigit09
  let r1 := l.dropWhile isDigit09
  match r1 with
  | '.' :: r2 =>
    let d2 := r2.takeWhile isDigit09
    if d2 ≠ [] then some (mkDecimal 1 d1 d2)
    else if d1 ≠ [] then some (mkDecimal 1 d1 [])
    else none
  | _ => if d1 ≠ [] then some (mkDecimal 1 d1 []) else none

/-- Try the match anchored at the head, sign included. -/
def tryNumSigned (l : List Char) : Option ℚ :=
  match l with
  | '-' :: r => match tryNumHere r with
    | some v => some (-v)
    | none => tryNumHere l
  | '+' :: r => match tryNumHere r with
    | some v => some v
    | none => tryNumHere l
  | _ => tryNumHere l

/-- Leftmost match of `[-+]?\d*\.?\d+` in the string, as a value. -/
def firstNumericSub? : List Char → Option ℚ
  | [] => none
  | c :: rest =>
    match tryNumSigned (c :: rest) with
    | some v => some v
    | none => firstNumericSub? rest

/-! ### Value Parser

`parse_financial_value` as defined (twice, with identical text) at
`sheet.py:830-856` and `sheet.py:1981-2008` (`clean_financial_value`). -/

/-- `parse_financial_value` / `clean_financial_value` from the source:
empty → `None`; strip; `(X)` → `-float(X.replace('$','').replace(',',''))`
(no `%` stripping in this branch); otherwise strip `$`, `,`, `%`, try
`float`, and finally fall back to the first `[-+]?\d*\.?\d+` substring. -/
def parse_financial_value (value : String) : Option ℚ :=
  if value = "" then none
  else
    let s := trimL value.data
    if listStartsWith ['('] s ∧ listEndsWith [')'] s then
      match pyFloat? (removeChar ',' (removeChar '$' (dropFirstLast s))) with
      | some q => some (-q)
      | none => none
    else
      let s2 := removeChar '%' (removeChar ',' (removeChar '$' s))
      match pyFloat? s2 with
      | some q => some q
      | none => firstNumericSub? s2

/-! ### Header Locator token predicates

The source's period regexes (`sheet.py:1434-1441` and `1489-1496`).  Each
month alternation `jan|january` etc. searched with `re.search` reduces to
containment of the three-letter code, because the long form contains the
short one.  Quarters are `q[1-4]` or `quarter\s*[1-4]`; years are `20\d{2}`
or `19\d{2}`, searched in that order with the leftmost match taken. -/

def monthCodes : List String :=
  ["jan", "feb", "mar", "apr", "may", "jun", "jul", "aug", "sep", "oct", "nov", "dec"]

/-- `re.search(p, s)` succeeds for some month pattern `p`. -/
def monthTok (s : List Char) : Bool := monthCodes.any (fun m => containsL m.data s)

/-- Is there a position matching `q[1-4]`? -/
def hasQn : List Char → Bool
  | 'q' :: d :: rest => ('1' ≤ d && d ≤ '4') || hasQn (d :: rest)
  | _ :: rest => hasQn rest
  | [] => false

/-- Is there a position matching `quarter\s*[1-4]`? -/
def hasQuarterN : List Char → Bool
  | [] => false
  | c :: rest =>
    (if "quarter".data.isPrefixOf (c :: rest) then
      match ((c :: rest).drop 7).dropWhile pyIsSpace with
      | d :: _ => '1' ≤ d && d ≤ '4'
      | [] => false
    else false) || hasQuarterN rest

/-- `re.search(p, s)` succeeds for some quarter pattern `p`. -/
def quarterTok (s : List Char) : Bool := hasQn s || hasQuarterN s

/-- Leftmost occurrence of `pre` followed by two digits, as the 4-character
matched text. -/
def yearSearchPat (pre : List Char) : List Char → Option (List Char)
  | [] => none
  | c :: rest =>
    if pre.isPrefixOf (c :: rest) then
      match (c :: rest).drop pre.length with
      | d1 :: d2 :: _ =>
        if isDigit09 d1 && isDigit09 d2 then some (pre ++ [d1, d2])
        else yearSearchPat pre rest
      | _ => yearSearchPat pre rest
    else yearSearchPat pre rest

/-- The year detection: `re.search(r'20\d{2}')`, then `re.search(r'19\d{2}')`,
returning `match.group()`. -/
def yearSearch (s : List Char) : Option (List Char) :=
  match yearSearchPat "20".data s with
  | some y => some y
  | none => yearSearchPat "19".data s

/-! ### `_extract_periods_from_row` (`sheet.py:1426-1477`) -/

structure PeriodInfo where
  is_period_header : Bool
  periods : List String
  period_type : String
  year : Option String
deriving DecidableEq, Repr

/-- One iteration of the cell loop: state is (periods, period_type, year). -/
def extractPeriodsStep (st : List String × String × Option String) (cell : String) :
    List String × String × Option String :=
  let (periods, ptype, year) := st
  let cl := lowerL (trimL cell.data)
  -- months: append the cell (duplicates allowed) and set type 'monthly'
  let (periods, ptype) :=
    if monthTok cl then (periods ++ [cell], "monthly") else (periods, ptype)
  -- quarters: append the cell (duplicates allowed) and set type 'quarterly'
  let (periods, ptype) :=
    if quarterTok cl then (periods ++ [cell], "quarterly") else (periods, ptype)
  -- years: record the matched year text and append the cell if not present
  match yearSearch cl with
  | some y =>
    (if cell ∈ periods then periods else periods ++ [cell], ptype, some (String.mk y))
  | none => (periods, ptype, year)

def extract_periods_from_row (row : List String) : PeriodInfo :=
  let (periods, ptype, year) := row.foldl extractPeriodsStep ([], "unknown", none)
  { is_period_header := 2 ≤ periods.length || (periods.length = 1 && year.isSome)
    periods := periods
    period_type := ptype
    year := year }

/-! ### `_analyze_row_content` (`sheet.py:1479-1539`) -/

structure RowContent where
  has_only_years : Bool
  has_only_periods : Bool
  year_count : ℕ
  period_count : ℕ
  total_cells : ℕ
  year : Option String
  period_type : String
deriving DecidableEq, Repr

/-- State: (year_count, period_count, total_cells, year, period_type). -/
def analyzeRowContentStep (st : ℕ × ℕ × ℕ × Option String × String) (cell : String) :
    ℕ × ℕ × ℕ × Option String × String :=
  let (yc, pc, tc, year, ptype) := st
  let cs := trimL cell.data
  if cs = [] then st
  else
    let tc := tc + 1
    -- years (searched on the stripped cell, case untouched)
    let (yc, year) :=
      match yearSearch cs with
      | some y => (yc + 1, if year = none then some (String.mk y) else year)
      | none => (yc, year)
    -- months, then quarters (searched on the lower-cased cell)
    let (pc, ptype) := if monthTok (lowerL cs) then (pc + 1, "monthly") else (pc, ptype)
    let (pc, ptype) := if quarterTok (lowerL cs) then (pc + 1, "quarterly") else (pc, ptype)
    (yc, pc, tc, year, ptype)

def analyze_row_content (row : List String) : RowContent :=
  let (yc, pc, tc, year, ptype) := row.foldl analyzeRowContentStep (0, 0, 0, none, "unknown")
  -- `count >= total_cells * 0.5` is the exact integer comparison `2*count >= total`
  { has_only_years := 0 < yc && pc = 0 && tc ≤ 2 * yc
    has_only_periods := 0 < pc && yc = 0 && tc ≤ 2 * pc
    year_count := yc
    period_count := pc
    total_cells := tc
    year := year
    period_type := ptype }

/-! ### `_combine_multi_row_header` (`sheet.py:1541-1568`) -/

/-- The exact lower-cased tokens the combiner recognizes (`sheet.py:1557-1558`):
the twelve month abbreviations and `full year` — quarters are absent. -/
def combineTokens : List String :=
  ["jan", "feb", "mar", "apr", "may", "jun", "jul", "aug", "sep", "oct", "nov", "dec",
   "full year"]

def combineHeaderCell (year : String) (i : ℕ) (yearCell periodCell : String) : String :=
  let ys := String.mk (trimL yearCell.data)
  let ps := String.mk (trimL periodCell.data)
  if i = 0 then (if ys ≠ "" then ys else ps)
  else if ps ≠ "" ∧ String.mk (lowerL ps.data) ∈ combineTokens then
    if String.mk (lowerL ps.data) = "full year" then "Full Year " ++ year
    else String.mk (upperL ps.data) ++ " " ++ year
  else (if ys ≠ "" then ys else ps)

def combineRowsFrom (year : String) : ℕ → List (String × String) → List String
  | _, [] => []
  | i, (y, p) :: rest => combineHeaderCell year i y p :: combineRowsFrom year (i + 1) rest

def combine_multi_row_header (year_row period_row : List String) (year : String) :
    List String :=
  let maxLen := max year_row.length period_row.length
  let yr := year_row ++ List.replicate (maxLen - year_row.length) ""
  let pr := period_row ++ List.replicate (maxLen - period_row.length) ""
  combineRowsFrom year 0 (yr.zip pr)

/-! ### `_analyze_header_candidates` (`sheet.py:1345-1424`) -/

structure HeaderResult where
  row_index : ℕ
  header_row : List String
  periods : List String
  period_type : String
  year : Option String
deriving DecidableEq, Repr

/-- Does a row qualify in the single-row scan (`sheet.py:1349-1357`)?  Blank
rows are skipped; a qualifying row has `is_period_header`, at least three
entries in the extracted period list, and a detected year. -/
def acceptsSingleRow (row : List String) : Bool :=
  !(row.isEmpty || row.all (fun c => trimL c.data = [])) &&
    (let pi := extract_periods_from_row row
     pi.is_period_header && 3 ≤ pi.periods.length && pi.year.isSome)

/-- The single-row scan (first loop of `_analyze_header_candidates`),
returning the result for the first qualifying row. -/
def scanSingleRowAux (k : ℕ) : List (List String) → Option HeaderResult
  | [] => none
  | row :: rest =>
    if acceptsSingleRow row then
      let pi := extract_periods_from_row row
      some ⟨k, row, pi.periods, pi.period_type, pi.year⟩
    else scanSingleRowAux (k + 1) rest

def scanSingleRow (grid : List (List String)) : Option HeaderResult :=
  scanSingleRowAux 0 grid

/-- The adjacent-pair scan (second loop of `_analyze_header_candidates`,
`sheet.py:1367-1405`). -/
def scanPairsAux (k : ℕ) : List (List String) → Option HeaderResult
  | r0 :: r1 :: rest =>
    if r0.isEmpty || r1.isEmpty then scanPairsAux (k + 1) (r1 :: rest)
    else
      let a0 := analyze_row_content r0
      let a1 := analyze_row_content r1
      if a0.has_only_years && a1.has_only_periods && 3 ≤ a1.period_count then
        let combined := combine_multi_row_header r0 r1 (a0.year.getD "")
        some ⟨k + 1, combined, combined.drop 1, a1.period_type, a0.year⟩
      else if a1.has_only_years && a0.has_only_periods && 3 ≤ a0.period_count then
        let combined := combine_multi_row_header r1 r0 (a1.year.getD "")
        some ⟨k, combined, combined.drop 1, a0.period_type, a1.year⟩
      else scanPairsAux (k + 1) (r1 :: rest)
  | _ => none

def scanPairs (grid : List (List String)) : Option HeaderResult :=
  scanPairsAux 0 grid

/-- The last-resort loop (`sheet.py:1408-1416`): first row with a non-blank cell. -/
def firstNonEmptyRowAux (k : ℕ) : List (List String) → Option (ℕ × List String)
  | [] => none
  | row :: rest =>
    if !row.isEmpty && row.any (fun c => trimL c.data ≠ []) then some (k, row)
    else firstNonEmptyRowAux (k + 1) rest

def firstNonEmptyRow (grid : List (List String)) : Option (ℕ × List String) :=
  firstNonEmptyRowAux 0 grid

/-- `_analyze_header_candidates`: single-row scan, then adjacent-pair scan,
then the last resort. -/
def analyze_header_candidates (grid : List (List String)) : HeaderResult :=
  match scanSingleRow grid with
  | some h => h
  | none =>
    match scanPairs grid with
    | some h => h
    | none =>
      match firstNonEmptyRow grid with
      | some (i, row) => ⟨i, row, [], "unknown", none⟩
      | none => ⟨0, [], [], "unknown", none⟩

/-! ### Chart Planner period grouping (`_create_chart_for_row`, `sheet.py:869-921`)

A row's period columns are given as pairs of a period label and the value
`parse_financial_value` produced for that column (`None` for unparseable
cells).  The loop keeps only columns with a valid value and routes each to
the first matching bucket: monthly, else quarterly, else annual, else other. -/

inductive PeriodGroup | monthly | quarterly | annual | other
deriving DecidableEq, Repr

/-- The classification chain of `sheet.py:885-900` on `period.lower()`. -/
def classifyPeriod (p : String) : PeriodGroup :=
  let pl := lowerL p.data
  if monthCodes.any (fun m => containsL m.data pl) then .monthly
  else if ["q1", "q2", "q3", "q4", "quarter"].any (fun q => containsL q.data pl) then
    .quarterly
  else if ["full year", "annual", "year"].any (fun a => containsL a.data pl) then .annual
  else .other

structure PeriodBuckets where
  monthly : List (String × ℚ)
  quarterly : List (String × ℚ)
  annual : List (String × ℚ)
  other : List (String × ℚ)
deriving DecidableEq, Repr

def PeriodBuckets.group : PeriodBuckets → PeriodGroup → List (String × ℚ)
  | b, .monthly => b.monthly
  | b, .quarterly => b.quarterly
  | b, .annual => b.annual
  | b, .other => b.other

/-- The partition loop (`sheet.py:879-900`). -/
def partitionPeriods : List (String × Option ℚ) → PeriodBuckets
  | [] => ⟨[], [], [], []⟩
  | (p, v) :: rest =>
    let b := partitionPeriods rest
    match v with
    | none => b
    | some x =>
      match classifyPeriod p with
      | .monthly => { b with monthly := (p, x) :: b.monthly }
      | .quarterly => { b with quarterly := (p, x) :: b.quarterly }
      | .annual => { b with annual := (p, x) :: b.annual }
      | .other => { b with other := (p, x) :: b.other }

/-- The chart-creation loops (`sheet.py:935-939` and `999-1026`) walk
`chart_types = [monthly, quarterly, annual, other]` in order and stop at the
first group with at least two periods; when none qualifies no chart is
produced (`sheet.py:1028-1029`). -/
def selectChartGroup (pairs : List (String × Option ℚ)) :
    Option (PeriodGroup × List (String × ℚ)) :=
  let b := partitionPeriods pairs
  if 2 ≤ b.monthly.length then some (.monthly, b.monthly)
  else if 2 ≤ b.quarterly.length then some (.quarterly, b.quarterly)
  else if 2 ≤ b.annual.length then some (.annual, b.annual)
  else if 2 ≤ b.other.length then some (.other, b.other)
  else none

/-! ### Trend Analyzer (`_calculate_movements`, `sheet.py:2468-2500`) -/

structure Movements where
  absolute_changes : List ℚ
  percentage_changes : List ℚ
  total_change : ℚ
  avg_change : ℚ
  trend : String
deriving DecidableEq, Repr

/-- The adjacent-pair loop: for each `i` in `1..len-1`, when both entries are
non-null and the previous one is nonzero, record
`(curr - prev, (curr - prev)/prev * 100)`. -/
def movementPairs : List (Option ℚ) → List (ℚ × ℚ)
  | a :: b :: rest =>
    (match a, b with
     | some p, some c =>
       if p ≠ 0 then (c - p, (c - p) / p * 100) :: movementPairs (b :: rest)
       else movementPairs (b :: rest)
     | _, _ => movementPairs (b :: rest))
  | _ => []

def calculate_movements (data : List (Option ℚ)) : Movements :=
  let ch := movementPairs data
  let absCh := ch.map Prod.fst
  let pctCh := ch.map Prod.snd
  if absCh.isEmpty then
    { absolute_changes := [], percentage_changes := [], total_change := 0,
      avg_change := 0, trend := "stable" }
  else
    let total := absCh.sum
    let avg := total / absCh.length
    { absolute_changes := absCh
      percentage_changes := pctCh
      total_change := total
      avg_change := avg
      trend := if 0 < avg then "increasing" else if avg < 0 then "decreasing" else "stable" }

/-! ### Header Hierarchy Resolver (`_find_header_column`, `sheet.py:1673-1741`,
and `_is_financial_metric_name`, `sheet.py:1743-1781`) -/

def financialKeywords : List String :=
  ["revenue", "sales", "income", "profit", "loss", "margin", "cost", "expense",
   "gross", "operating", "net", "ebitda", "ebit", "cash", "flow", "earnings",
   "assets", "liabilities", "equity", "debt", "capital", "marketing", "cac",
   "customers", "ltv", "churn", "arpu", "total", "sum", "balance", "receivable",
   "payable", "inventory", "depreciation", "amortization", "interest", "tax"]

/-- `re.match(r'^\s*[•\-\*]\s+', text)`. -/
def bulletPat (l : List Char) : Bool :=
  match l.dropWhile pyIsSpace with
  | c :: d :: _ => (c = '•' || c = '-' || c = '*') && pyIsSpace d
  | _ => false

/-- `re.match(r'^\s*\d+\.\s+', text)`. -/
def numberedPat (l : List Char) : Bool :=
  let l1 := l.dropWhile pyIsSpace
  let ds := l1.takeWhile isDigit09
  match l1.dropWhile isDigit09 with
  | '.' :: d :: _ => !ds.isEmpty && pyIsSpace d
  | _ => false

/-- `re.match(r'^\s*[A-Z][a-z]+\s+', text)`. -/
def capWordPat (l : List Char) : Bool :=
  match l.dropWhile pyIsSpace with
  | c :: rest =>
    isUpperAZ c &&
      (let lo := rest.takeWhile isLowerAZ
       match rest.dropWhile isLowerAZ with
       | d :: _ => !lo.isEmpty && pyIsSpace d
       | [] => false)
  | [] => false

/-- `re.match(r'^\s*[a-z]+\s+', text)`. -/
def lowerWordPat (l : List Char) : Bool :=
  let l1 := l.dropWhile pyIsSpace
  let lo := l1.takeWhile isLowerAZ
  match l1.dropWhile isLowerAZ with
  | d :: _ => !lo.isEmpty && pyIsSpace d
  | [] => false

def is_financial_metric_name (text : String) : Bool :=
  financialKeywords.any (fun k => containsL k.data (lowerL text.data)) ||
    bulletPat text.data || numberedPat text.data ||
    capWordPat text.data || lowerWordPat text.data

/-- Python `str.isupper`: at least one cased character and no lower-case one
(ASCII model). -/
def isUpperStr (l : List Char) : Bool :=
  l.any isUpperAZ && !(l.any isLowerAZ)

/-- A column of the DataFrame, as the list of its cells (short rows padded
with `""`). -/
def colVals (rows : List (List String)) (c : ℕ) : List String :=
  rows.map (fun r => r.getD c "")

/-- Is the cell counted at all (`value_str and value_str.lower() not in
['nan','none','']`)? -/
def countedCell (vs : String) : Bool :=
  vs ≠ "" && String.mk (lowerL vs.data) ∉ (["nan", "none", ""] : List String)

/-- `(metric_count, total_count)` over a column (`sheet.py:1689-1695`). -/
def countMetrics (vals : List String) : ℕ × ℕ :=
  vals.foldl
    (fun (st : ℕ × ℕ) v =>
      let vs := String.mk (trimL v.data)
      if countedCell vs then
        ((if is_financial_metric_name vs then st.1 + 1 else st.1), st.2 + 1)
      else st)
    (0, 0)

/-- `(hierarchical_count, total_count)` over column 0 (`sheet.py:1702-1714`). -/
def countHierarchical (vals : List String) : ℕ × ℕ :=
  vals.foldl
    (fun (st : ℕ × ℕ) v =>
      let vs := String.mk (trimL v.data)
      if countedCell vs then
        ((if (isUpperStr vs.data && 2 < vs.length) ||
              containsL "&".data vs.data || containsL "and".data (lowerL vs.data) ||
              is_financial_metric_name vs
          then st.1 + 1 else st.1), st.2 + 1)
      else st)
    (0, 0)

/-- `metric_count / max(total_count, 1) > 0.3` as the exact integer
comparison (`10*mc > 3*max(tc,1)`; the float and rational comparisons agree
for all realistic counts). -/
def fracGt30 (mc tc : ℕ) : Bool := 3 * max tc 1 < 10 * mc

/-- `hierarchical_count / max(total_count, 1) > 0.2` as `5*hc > max(tc,1)`. -/
def fracGt20 (hc tc : ℕ) : Bool := max tc 1 < 5 * hc

/-- `_find_header_column` over a DataFrame with `ncols` columns given as a
row list.  Prefer column 1 on the strict 30% metric test; else column 0 on
the strict 20% hierarchical test; else the first column passing the 30%
test; else column 0. -/
def find_header_column (ncols : ℕ) (rows : List (List String)) : ℕ :=
  if 1 < ncols ∧
      (let (mc, tc) := countMetrics (colVals rows 1)
       0 < mc ∧ fracGt30 mc tc) then 1
  else if (let (hc, tc) := countHierarchical (colVals rows 0)
           0 < hc ∧ fracGt20 hc tc) then 0
  else
    match (List.range ncols).find?
        (fun c =>
          let (mc, tc) := countMetrics (colVals rows c)
          0 < mc && fracGt30 mc tc) with
    | some c => c
    | none => 0

/-! ### Component Resolver (`_find_component_rows`, `sheet.py:2048-2229`) -/

/-- The value parser used inside `_find_component_rows`
(`sheet.py:2123-2136` and `2167-2180`): the parenthesized branch does not
strip `$`/`,`, and there is no symbol stripping or regex fallback at all. -/
def parse_fin_simple (value : String) : Option ℚ :=
  if value = "" then none
  else
    let s := trimL value.data
    if listStartsWith ['('] s ∧ listEndsWith [')'] s then
      match pyFloat? (dropFirstLast s) with
      | some q => some (-q)
      | none => none
    else pyFloat? s

structure ComponentRow where
  index : ℕ
  name : String
  values : List ℚ
deriving DecidableEq, Repr

/-- `re.findall(r'[A-Z]+\d+', formula)` and `int` of each reference's digit
part, fuel-indexed to stay structurally recursive (`fuel ≥ length` suffices
since every step consumes at least one character). -/
def cellRefNumsAux : ℕ → List Char → List ℕ
  | 0, _ => []
  | _ + 1, [] => []
  | fuel + 1, c :: rest =>
    if isUpperAZ c then
      let after := (c :: rest).dropWhile isUpperAZ
      let ds := after.takeWhile isDigit09
      if ds ≠ [] then natFromDigits ds :: cellRefNumsAux fuel (after.dropWhile isDigit09)
      else cellRefNumsAux fuel rest
    else cellRefNumsAux fuel rest

def cellRefNums (l : List Char) : List ℕ := cellRefNumsAux l.length l

/-- The referenced DataFrame indices collected by the formula-trace loop
(`sheet.py:2086-2112`): for each fetched cell whose text starts with `=`,
every `[A-Z]+\d+` reference contributes `row - 2` when in bounds.  Python
accumulates them in a `set` of small non-negative integers, which iterates
in ascending order; the model sorts and deduplicates accordingly. -/
def referencedRows (dfLen : ℕ) (formulas : List (List String)) : List ℕ :=
  let collected :=
    formulas.flatMap (fun row =>
      row.flatMap (fun cell =>
        if listStartsWith ['='] cell.data then
          (cellRefNums cell.data).filterMap (fun r =>
            if 2 ≤ r ∧ r - 2 < dfLen then some (r - 2) else none)
        else []))
  (collected.dedup.mergeSort (· ≤ ·))

/-- The formula-trace component collection (`sheet.py:2114-2148`): each
referenced row is kept unless its label contains `total`, `sum` or `net`
(note: not `gross` or `operating`), and it must have at least one parseable
value with a nonzero absolute sum. -/
def formula_trace_components (df : List (List String)) (formulas : List (List String)) :
    List ComponentRow :=
  (referencedRows df.length formulas).filterMap (fun idx =>
    let row := df.getD idx []
    let name := row.getD 0 ""
    if ["total", "sum", "net"].any (fun k => containsL k.data (lowerL name.data)) then
      none
    else
      let vals := (row.drop 1).filterMap parse_fin_simple
      if !vals.isEmpty && 0 < (vals.map (fun v => |v|)).sum then
        some ⟨idx, name, vals⟩
      else none)

/-- The heuristic's semantic match (`sheet.py:2193-2219`). -/
def isComponentMatch (summaryName name : String) : Bool :=
  let summaryLower := lowerL summaryName.data
  let componentLower := lowerL name.data
  let sw := splitWs summaryLower
  let cw := splitWs componentLower
  let shared := sw.filter (fun w => w ∈ cw)
  let keyTerms : List String :=
    ["revenue", "sales", "expense", "cost", "income", "profit", "loss", "margin",
     "gross", "net", "operating"]
  let generalTerms : List String := ["total", "net", "gross", "operating", "overall"]
  let specificTerms : List String :=
    ["revenue", "sales", "expense", "cost", "returns", "refunds", "discounts", "stream"]
  (keyTerms.any (fun t => t.data ∈ shared)) ||
    (generalTerms.any (fun t => t.data ∈ sw) && specificTerms.any (fun t => t.data ∈ cw)) ||
    (containsL "revenue".data summaryLower && containsL "stream".data componentLower)

/-- The candidate indices of the heuristic fallback: Python
`range(summary_row_index - 1, max(0, summary_row_index - 10), -1)`, whose
stop value is excluded. -/
def heuristicCandidates (summaryIdx : ℕ) : List ℕ :=
  (List.range' (summaryIdx - 10 + 1) ((summaryIdx - 1) - (summaryIdx - 10))).reverse

/-- The heuristic fallback loop (`sheet.py:2160-2227`). -/
def heuristic_component_rows (df : List (List String)) (summaryIdx : ℕ)
    (summaryName : String) : List ComponentRow :=
  (heuristicCandidates summaryIdx).filterMap (fun i =>
    if df.length ≤ i then none
    else
      let row := df.getD i []
      let name := row.getD 0 ""
      let vals := (row.drop 1).filterMap parse_fin_simple
      if !vals.isEmpty && 0 < (vals.map (fun v => |v|)).sum then
        if ["total", "sum", "net"].any (fun k => containsL k.data (lowerL name.data)) then
          none
        else if isComponentMatch summaryName name then some ⟨i, name, vals⟩
        else none
      else none)

/-- `_find_component_rows`: the formula trace is used when formulas are
available and yield a nonempty component list, else the heuristic. -/
def find_component_rows (df : List (List String)) (formulas : Option (List (List String)))
    (summaryIdx : ℕ) (summaryName : String) : List ComponentRow :=
  let traced := match formulas with
    | some f => formula_trace_components df f
    | none => []
  if !traced.isEmpty then traced
  else heuristic_component_rows df summaryIdx summaryName

/-- The summary test used throughout the source (`sheet.py:925-926` and
`2027-2028`): the label contains one of five keywords. -/
def isSummaryLabel (name : String) : Bool :=
  ["total", "sum", "net", "gross", "operating"].any
    (fun k => containsL k.data (lowerL name.data))

/-! ### Row Classifier numeric extraction (`identify_all_numeric_rows`,
`sheet.py:2010-2022`) -/

/-- `clean_financial_value` (`sheet.py:1981-2008`) is textually identical to
`parse_financial_value`. -/
def clean_financial_value (value : String) : Option ℚ := parse_financial_value value

/-- Values parsed from the alignment starting at column 1 (`row.iloc[1:]`),
nulls dropped. -/
def numericValuesCol1 (row : List String) : List ℚ :=
  (row.drop 1).filterMap clean_financial_value

/-- Values parsed from the alignment starting at column 2 (`row.iloc[2:]`),
nulls dropped. -/
def numericValuesCol2 (row : List String) : List ℚ :=
  (row.drop 2).filterMap clean_financial_value

/-- The alignment choice (`sheet.py:2019-2022`): column 2 only when it has
strictly more non-null values. -/
def selectedNumericValues (row : List String) : List ℚ :=
  if (numericValuesCol1 row).length < (numericValuesCol2 row).length then
    numericValuesCol2 row
  else numericValuesCol1 row

/-! ### Specification-side helper definitions (used only to state theorems) -/

/-- The bucket of group `t` collects exactly the valid-valued periods whose
classification is `t`, in order. -/
def groupSel (t : PeriodGroup) (pv : String × Option ℚ) : Option (String × ℚ) :=
  match pv.2 with
  | some x => if classifyPeriod pv.1 = t then some (pv.1, x) else none
  | none => none

/-- Priority rank of the chart loop order monthly, quarterly, annual, other. -/
def groupRank : PeriodGroup → ℕ
  | .monthly => 0
  | .quarterly => 1
  | .annual => 2
  | .other => 3

/-- Specification transcription of the Trend Analyzer claim: absolute change
of a kept adjacent pair. -/
def specAbsChange (pc : Option ℚ × Option ℚ) : Option ℚ :=
  match pc.1, pc.2 with
  | some p, some c => if p ≠ 0 then some (c - p) else none
  | _, _ => none

/-- Specification transcription of the Trend Analyzer claim: percentage
change of a kept adjacent pair. -/
def specPctChange (pc : Option ℚ × Option ℚ) : Option ℚ :=
  match pc.1, pc.2 with
  | some p, some c => if p ≠ 0 then some ((c - p) / p * 100) else none
  | _, _ => none

/-! ## Helper lemmas -/

theorem scanSingleRowAux_found (rows : List (List String)) : ∀ (k : ℕ) (h : HeaderResult),
    scanSingleRowAux k rows = some h →
    acceptsSingleRow (rows.getD (h.row_index - k) []) = true ∧ k ≤ h.row_index ∧
      ∀ i, i < h.row_index - k → acceptsSingleRow (rows.getD i []) = false := by
  induction rows with
  | nil => intro k h heq; simp [scanSingleRowAux] at heq
  | cons r rest ih =>
    intro k h heq
    by_cases hr : acceptsSingleRow r = true
    · rw [scanSingleRowAux, if_pos hr] at heq
      obtain rfl := (Option.some.injEq _ _).mp heq
      refine ⟨by simpa using hr, le_refl _, ?_⟩
      intro i hi
      simp at hi
    · rw [scanSingleRowAux, if_neg hr] at heq
      obtain ⟨h1, h2, h3⟩ := ih (k + 1) h heq
      have hk : k + 1 ≤ h.row_index := h2
      refine ⟨?_, by omega, ?_⟩
      · have : h.row_index - k = (h.row_index - (k + 1)) + 1 := by omega
        rw [this]
        simpa using h1
      · intro i hi
        match i with
        | 0 => simpa using (Bool.not_eq_true _).mp hr
        | i + 1 =>
          have : i < h.row_index - (k + 1) := by omega
          simpa using h3 i this

theorem filterMap_drop_one_length_le (f : String → Option ℚ) (l : List String) :
    ((l.drop 1).filterMap f).length ≤ (l.filterMap f).length := by
  cases l with
  | nil => simp
  | cons a t =>
    simp only [List.drop_one, List.tail_cons, List.filterMap_cons]
    cases f a <;> simp

theorem partition_group_spec (t : PeriodGroup) (pairs : List (String × Option ℚ)) :
    (partitionPeriods pairs).group t = pairs.filterMap (groupSel t) := by
  induction pairs with
  | nil => cases t <;> rfl
  | cons pv rest ih =>
    obtain ⟨p, v⟩ := pv
    cases v with
    | none => simpa [partitionPeriods, groupSel, List.filterMap_cons] using ih
    | some x =>
      cases t <;> cases hc : classifyPeriod p <;>
        simp_all [partitionPeriods, groupSel, List.filterMap_cons, PeriodBuckets.group]

theorem movementPairs_fst (data : List (Option ℚ)) :
    (movementPairs data).map Prod.fst = (data.zip data.tail).filterMap specAbsChange := by
  induction data with
  | nil => rfl
  | cons a rest ih =>
    cases rest with
    | nil => rfl
    | cons b t =>
      have ih' := ih
      cases a with
      | none => simpa [movementPairs, specAbsChange, List.filterMap_cons] using ih'
      | some p =>
        cases b with
        | none => simpa [movementPairs, specAbsChange, List.filterMap_cons] using ih'
        | some c =>
          by_cases hp : p = 0 <;>
            simp_all [movementPairs, specAbsChange, List.filterMap_cons]

theorem movementPairs_snd (data : List (Option ℚ)) :
    (movementPairs data).map Prod.snd = (data.zip data.tail).filterMap specPctChange := by
  induction data with
  | nil => rfl
  | cons a rest ih =>
    cases rest with
    | nil => rfl
    | cons b t =>
      have ih' := ih
      cases a with
      | none => simpa [movementPairs, specPctChange, List.filterMap_cons] using ih'
      | some p =>
        cases b with
        | none => simpa [movementPairs, specPctChange, List.filterMap_cons] using ih'
        | some c =>
          by_cases hp : p = 0 <;>
            simp_all [movementPairs, specPctChange, List.filterMap_cons]

theorem dropWhile_cons_false (p : Char → Bool) (a : Char) (l : List Char)
    (h : p a = false) : List.dropWhile p (a :: l) = a :: l := by
  simp [List.dropWhile, h]

theorem trimL_paren (l : List Char) :
    trimL ('(' :: (l ++ [')'])) = '(' :: (l ++ [')']) := by
  unfold trimL
  rw [dropWhile_cons_false _ _ _ rfl]
  rw [show ('(' :: (l ++ [')'])).reverse = ')' :: (l.reverse ++ ['(']) by simp]
  rw [dropWhile_cons_false _ _ _ rfl]
  simp

theorem paren_data (s : String) :
    ("(" ++ s ++ ")").data = '(' :: (s.data ++ [')']) := by
  simp [String.data_append]

/-! ## Claims -/

/-- C1 (counterexample): on the exact grid of the claim — year row
`["", "2023", "2023", ""]` directly above period row
`["Metric", "Q1", "Q2", "Full Year"]` — the Header Locator does NOT combine
the two rows into `["Metric", "Q1 2023", "Q2 2023", "Full Year 2023"]`.
`Full Year` matches no period pattern, so the period row has only 2 period
tokens and fails the `period_count >= 3` gate of the pair scan
(`sheet.py:1378-1379`); the locator falls through to the last resort and
returns the year row itself with no periods. -/
theorem C1_counterexample :
    analyze_header_candidates
        [["", "2023", "2023", ""], ["Metric", "Q1", "Q2", "Full Year"]] =
      ⟨0, ["", "2023", "2023", ""], [], "unknown", none⟩ ∧
    ((analyze_header_candidates
        [["", "2023", "2023", ""], ["Metric", "Q1", "Q2", "Full Year"]]).header_row
      == ["Metric", "Q1 2023", "Q2 2023", "Full Year 2023"]) = false := by
  exact ⟨rfl, rfl⟩

/-- C1 (amended): a (year-row, period-row) adjacency combines only when the
period row carries at least 3 month/quarter tokens, and in the combined
header a non-label column becomes `"{PERIOD} {YEAR}"` only when its period
cell is exactly a three-letter month abbreviation (upper-cased in the
output), or `"Full Year {YEAR}"` for the exact token `full year`; quarter
tokens such as `Q4` and all other cells keep the year-row cell when it is
non-empty and the period cell otherwise.  Shown here on a qualifying grid:
the month columns combine with the year, the quarter column stays `"Q4"`. -/
theorem C1_amended :
    analyze_header_candidates
        [["", "2023", "2023", "2023", ""], ["Metric", "JAN", "FEB", "MAR", "Q4"]] =
      ⟨1, ["Metric", "JAN 2023", "FEB 2023", "MAR 2023", "Q4"],
        ["JAN 2023", "FEB 2023", "MAR 2023", "Q4"], "quarterly", some "2023"⟩ ∧
    combine_multi_row_header ["", "2023", "2023", "2023", ""]
        ["Metric", "JAN", "FEB", "MAR", "Q4"] "2023" =
      ["Metric", "JAN 2023", "FEB 2023", "MAR 2023", "Q4"] := by
  exact ⟨rfl, rfl⟩

/-- C2 (counterexample): a row whose only date-like cells are three distinct
year tokens — no month or quarter token anywhere — IS accepted by the
single-row scan as a valid period header, because year cells are appended to
the extracted period list (`sheet.py:1460-1467`) and therefore count toward
the `len(periods) >= 3` test.  The claim's "never accepted" is false. -/
theorem C2_counterexample :
    analyze_header_candidates [["", "2021", "2022", "2023"]] =
      ⟨0, ["", "2021", "2022", "2023"], ["2021", "2022", "2023"], "unknown",
        some "2023"⟩ ∧
    (["", "2021", "2022", "2023"].any
      (fun c => monthTok (lowerL (trimL c.data)) || quarterTok (lowerL (trimL c.data))))
      = false := by
  exact ⟨rfl, rfl⟩

/-- C2 (amended): the single-row scan accepts a row exactly when the
extracted period list has at least 3 entries and a year was detected, where
year cells count as periods (and duplicate month/quarter cells count each
time); among rows, the lowest qualifying row index is returned.  In
particular a row of three distinct year tokens qualifies.  Stated as: a
successful scan returns a qualifying row, and every earlier row fails the
acceptance test. -/
theorem C2_theorem (g : List (List String)) (h : HeaderResult)
    (heq : scanSingleRow g = some h) :
    acceptsSingleRow (g.getD h.row_index []) = true ∧
      ∀ i, i < h.row_index → acceptsSingleRow (g.getD i []) = false := by
  obtain ⟨h1, _, h3⟩ := scanSingleRowAux_found g 0 h heq
  rw [Nat.sub_zero] at h1
  refine ⟨h1, fun i hi => ?_⟩
  exact h3 i (by omega)

/-- Witness for C2: the scan hypothesis holds on the all-years grid. -/
theorem C2_witness :
    acceptsSingleRow (([["", "2021", "2022", "2023"]] : List (List String)).getD 0 [])
        = true ∧
      ∀ i, i < 0 →
        acceptsSingleRow (([["", "2021", "2022", "2023"]] : List (List String)).getD i [])
          = false :=
  C2_theorem [["", "2021", "2022", "2023"]]
    ⟨0, ["", "2021", "2022", "2023"], ["2021", "2022", "2023"], "unknown", some "2023"⟩
    rfl

/-- C3 (counterexample): the Value Parser maps `"4.0%"` to `4`, but its
parenthesized form `"(4.0%)"` to `None` rather than `-4`: the parenthesized
branch (`sheet.py:836-840`) strips only `$` and `,`, not `%`, and returns
`None` when the inner `float` fails, without falling through to the symbol
stripping and regex fallback of the non-parenthesized path. -/
theorem C3_counterexample :
    parse_financial_value "4.0%" = some 4 ∧ parse_financial_value "(4.0%)" = none := by
  exact ⟨by with_unfolding_all decide, rfl⟩

/-- C3 (amended): the negation law `parse("(" + X + ")") = -parse(X)` holds
for every already-trimmed, non-parenthesized `X` whose direct numeric parse
succeeds after stripping only `$` and `,` and which carries no `%` to strip
— e.g. `"(21.0)"` and `"($2,373)"` — but not in general: strings parseable
only via `%` stripping or the regex fallback yield `None` inside
parentheses. -/
theorem C3_theorem (s : String) (v : ℚ)
    (htrim : trimL s.data = s.data)
    (hnp : (listStartsWith ['('] s.data && listEndsWith [')'] s.data) = false)
    (hnopct : removeChar '%' (removeChar ',' (removeChar '$' s.data)) =
      removeChar ',' (removeChar '$' s.data))
    (hparse : pyFloat? (removeChar ',' (removeChar '$' s.data)) = some v) :
    parse_financial_value s = some v ∧
      parse_financial_value ("(" ++ s ++ ")") = some (-v) := by
  have hsne : s ≠ "" := by
    intro hs
    subst hs
    rw [show pyFloat? (removeChar ',' (removeChar '$' ("" : String).data)) = none from rfl]
      at hparse
    exact Option.noConfusion hparse
  have hnp' : ¬(listStartsWith ['('] s.data = true ∧ listEndsWith [')'] s.data = true) := by
    intro ⟨ha, hb⟩
    rw [ha, hb] at hnp
    exact Bool.noConfusion hnp
  constructor
  · unfold parse_financial_value
    rw [if_neg hsne]
    simp only [htrim]
    rw [if_neg hnp', hnopct, hparse]
  · have hne2 : ("(" ++ s ++ ")") ≠ "" := by
      intro hcontra
      have := congrArg String.data hcontra
      rw [paren_data] at this
      exact List.noConfusion this
    unfold parse_financial_value
    rw [if_neg hne2]
    simp only [paren_data, trimL_paren]
    rw [if_pos ?pos]
    case pos =>
      constructor
      · simp [listStartsWith, List.isPrefixOf]
      · simp [listEndsWith, List.isPrefixOf]
    have hdfl : dropFirstLast ('(' :: (s.data ++ [')'])) = s.data := by
      simp [dropFirstLast]
    rw [hdfl, hparse]

set_option maxRecDepth 4096 in
/-- Witness for C3: the hypotheses hold at `X = "$2,373"`, `v = 2373`. -/
theorem C3_witness :
    parse_financial_value "$2,373" = some 2373 ∧
      parse_financial_value ("(" ++ "$2,373" ++ ")") = some (-2373) :=
  C3_theorem "$2,373" 2373 rfl rfl rfl (by with_unfolding_all decide)

/-- C4 (counterexample): the formula-trace strategy DOES return rows that
are summary rows under the five-keyword definition.  With the DataFrame
rows `Gross Profit`, `Rent`, `Total Costs` and the traced formula `=B2+B3`
for the summary row, the component set is `{Gross Profit, Rent}` — and
`Gross Profit` is a summary row (`gross`), because the trace's exclusion
test (`sheet.py:2119`) checks only `total`, `sum`, `net`. -/
theorem C4_counterexample :
    ((formula_trace_components [["Gross Profit", "5"], ["Rent", "3"], ["Total Costs", "8"]]
        [["=B2+B3"]]).any (fun c => isSummaryLabel c.name)) = true ∧
    (formula_trace_components [["Gross Profit", "5"], ["Rent", "3"], ["Total Costs", "8"]]
        [["=B2+B3"]]).map ComponentRow.name = ["Gross Profit", "Rent"] := by
  exact ⟨by with_unfolding_all decide, by with_unfolding_all decide⟩

/-- C4 (amended): the formula-trace component set excludes exactly the
referenced rows whose label contains `total`, `sum` or `net`; rows whose
label contains only `gross` or `operating` can and do appear among the
returned components. -/
theorem C4_theorem (df formulas : List (List String)) (c : ComponentRow)
    (hmem : c ∈ formula_trace_components df formulas) :
    (["total", "sum", "net"].any
      (fun k => containsL k.data (lowerL c.name.data))) = false := by
  unfold formula_trace_components at hmem
  rw [List.mem_filterMap] at hmem
  obtain ⟨idx, -, hf⟩ := hmem
  by_cases hkw : (["total", "sum", "net"].any
      (fun k => containsL k.data (lowerL ((df.getD idx []).getD 0 "").data))) = true
  · rw [if_pos hkw] at hf
    exact Option.noConfusion hf
  · rw [if_neg hkw] at hf
    by_cases hv : (!((df.getD idx []).drop 1 |>.filterMap parse_fin_simple).isEmpty &&
        decide (0 < ((((df.getD idx []).drop 1 |>.filterMap parse_fin_simple)).map
          (fun v => |v|)).sum)) = true
    · rw [if_pos hv] at hf
      obtain rfl := (Option.some.injEq _ _).mp hf
      simpa using hkw
    · rw [if_neg hv] at hf
      exact Option.noConfusion hf

/-- Witness for C4: the membership hypothesis holds for the `Rent` component
of the counterexample trace. -/
theorem C4_witness :
    (["total", "sum", "net"].any
      (fun k => containsL k.data (lowerL ("Rent" : String).data))) = false :=
  C4_theorem [["Gross Profit", "5"], ["Rent", "3"], ["Total Costs", "8"]] [["=B2+B3"]]
    ⟨1, "Rent", [3]⟩ (by with_unfolding_all decide)

/-- C5 (counterexample): the heuristic fallback's loop is
`range(summary_row_index - 1, max(0, summary_row_index - 10), -1)`, whose
stop value is excluded, so row `max(i-10, 0)` is never examined.  For a
summary row at index 1 the candidate range is empty and even a perfectly
matching component at index 0 (`Product Revenue` under `Total Revenue`,
which the semantic test accepts) is never found — the claim's
"every index from i−1 down to max(i−10, 0) inclusive" is false. -/
theorem C5_counterexample :
    heuristic_component_rows [["Product Revenue", "5"], ["Total Revenue", "5"]] 1
        "Total Revenue" = [] ∧
      heuristicCandidates 1 = [] ∧
      isComponentMatch "Total Revenue" "Product Revenue" = true := by
  exact ⟨rfl, rfl, by decide⟩

/-- C5 (amended): the heuristic fallback examines only indices strictly
between `max(i-10, 0)` and `i` (Python `range(i-1, max(0, i-10), -1)`, stop
excluded — at most 9 rows, never row `max(i-10, 0)` itself), so every
returned component's index lies strictly in that interval. -/
theorem C5_theorem (df : List (List String)) (summaryIdx : ℕ) (summaryName : String)
    (c : ComponentRow) (hmem : c ∈ heuristic_component_rows df summaryIdx summaryName) :
    summaryIdx - 10 < c.index ∧ c.index < summaryIdx := by
  unfold heuristic_component_rows at hmem
  rw [List.mem_filterMap] at hmem
  obtain ⟨i, hi, hf⟩ := hmem
  rw [heuristicCandidates, List.mem_reverse, List.mem_range'_1] at hi
  have hci : c.index = i := by
    by_cases h1 : df.length ≤ i
    · rw [if_pos h1] at hf
      exact Option.noConfusion hf
    · rw [if_neg h1] at hf
      dsimp only at hf
      split at hf
      · split at hf
        · exact Option.noConfusion hf
        · split at hf
          · obtain rfl := (Option.some.injEq _ _).mp hf
            rfl
          · exact Option.noConfusion hf
      · exact Option.noConfusion hf
  subst hci
  omega

/-- Witness for C5: the membership hypothesis holds for the component found
at index 1 below a summary at index 2. -/
theorem C5_witness : (2 : ℕ) - 10 < 1 ∧ 1 < 2 :=
  C5_theorem [["x"], ["Product Revenue", "5"], ["Total Revenue", "8"]] 2 "Total Revenue"
    ⟨1, "Product Revenue", [5]⟩ (by with_unfolding_all decide)

/-- C9: when the single-row scan and the adjacent-pair scan both fail, the
Header Locator does not fail: it returns the first non-blank row with
`periods = []`, `period_type = "unknown"` and `year = none`
(`sheet.py:1408-1416`), and on a grid with no non-blank row it returns row
index 0 with an empty header row (`sheet.py:1418-1424`). -/
theorem C9_theorem (g : List (List String))
    (h1 : scanSingleRow g = none) (h2 : scanPairs g = none) :
    analyze_header_candidates g =
      (match firstNonEmptyRow g with
        | some (i, row) => ⟨i, row, [], "unknown", none⟩
        | none => ⟨0, [], [], "unknown", none⟩) := by
  unfold analyze_header_candidates
  rw [h1, h2]

/-- Witness for C9: both scans fail on a tokenless grid, and the last resort
returns its first non-blank row. -/
theorem C9_witness :
    analyze_header_candidates [["", ""], ["x", "y"]] =
      ⟨1, ["x", "y"], [], "unknown", none⟩ :=
  C9_theorem [["", ""], ["x", "y"]] rfl rfl

/-- C10: for every row, the non-null values parsed from the alignment
starting at column 2 are a suffix of those from column 1, so their count
never exceeds the column-1 count (`len(numeric_values_col2) >
len(numeric_values_col1)` is never true), and the classifier's selection
(`sheet.py:2019-2022`) always keeps the column-1 alignment. -/
theorem C10_theorem (row : List String) :
    (numericValuesCol2 row).length ≤ (numericValuesCol1 row).length ∧
      selectedNumericValues row = numericValuesCol1 row := by
  have hle : (numericValuesCol2 row).length ≤ (numericValuesCol1 row).length := by
    have h2 : row.drop 2 = (row.drop 1).drop 1 := by
      rw [List.drop_drop]
    unfold numericValuesCol2 numericValuesCol1
    rw [h2]
    exact filterMap_drop_one_length_le clean_financial_value (row.drop 1)
  refine ⟨hle, ?_⟩
  unfold selectedNumericValues
  rw [if_neg (by omega)]

/-- C6: the Chart Planner partitions a row's period columns into monthly,
quarterly, annual and other buckets containing exactly the valid-valued
periods of each classification (in column order), selects the first bucket
in the priority order monthly, quarterly, annual, other holding at least 2
periods, and yields no chart exactly when no bucket reaches size 2
(`sheet.py:869-921`, `935-939`, `999-1029`). -/
theorem C6_theorem (pairs : List (String × Option ℚ)) :
    (∀ t, (partitionPeriods pairs).group t = pairs.filterMap (groupSel t)) ∧
      (selectChartGroup pairs = none ↔
        ∀ t, ((partitionPeriods pairs).group t).length < 2) ∧
      (∀ t l, selectChartGroup pairs = some (t, l) →
        l = (partitionPeriods pairs).group t ∧ 2 ≤ l.length ∧
          ∀ u, groupRank u < groupRank t →
            ((partitionPeriods pairs).group u).length < 2) := by
  refine ⟨fun t => partition_group_spec t pairs, ?_, ?_⟩
  · unfold selectChartGroup
    dsimp only
    split_ifs with h1 h2 h3 h4
    · exact iff_of_false (by simp)
        (fun hall => by have := hall .monthly; simp [PeriodBuckets.group] at this; omega)
    · exact iff_of_false (by simp)
        (fun hall => by have := hall .quarterly; simp [PeriodBuckets.group] at this; omega)
    · exact iff_of_false (by simp)
        (fun hall => by have := hall .annual; simp [PeriodBuckets.group] at this; omega)
    · exact iff_of_false (by simp)
        (fun hall => by have := hall .other; simp [PeriodBuckets.group] at this; omega)
    · refine iff_of_true rfl (fun t => ?_)
      cases t <;> simp [PeriodBuckets.group] <;> omega
  · intro t l heq
    unfold selectChartGroup at heq
    dsimp only at heq
    split_ifs at heq with h1 h2 h3 h4
    · rw [Option.some.injEq, Prod.mk.injEq] at heq
      obtain ⟨ht, hl⟩ := heq
      subst ht
      subst hl
      refine ⟨rfl, h1, fun u hu => ?_⟩
      cases u <;> simp only [groupRank, PeriodBuckets.group] at hu ⊢ <;> omega
    · rw [Option.some.injEq, Prod.mk.injEq] at heq
      obtain ⟨ht, hl⟩ := heq
      subst ht
      subst hl
      refine ⟨rfl, h2, fun u hu => ?_⟩
      cases u <;> simp only [groupRank, PeriodBuckets.group] at hu ⊢ <;> omega
    · rw [Option.some.injEq, Prod.mk.injEq] at heq
      obtain ⟨ht, hl⟩ := heq
      subst ht
      subst hl
      refine ⟨rfl, h3, fun u hu => ?_⟩
      cases u <;> simp only [groupRank, PeriodBuckets.group] at hu ⊢ <;> omega
    · rw [Option.some.injEq, Prod.mk.injEq] at heq
      obtain ⟨ht, hl⟩ := heq
      subst ht
      subst hl
      refine ⟨rfl, h4, fun u hu => ?_⟩
      cases u <;> simp only [groupRank, PeriodBuckets.group] at hu ⊢ <;> omega

/-- Witness for C6: the selection hypothesis holds on a two-month row. -/
theorem C6_witness :
    ([("JAN", (3 : ℚ)), ("FEB", 4)] :
        List (String × ℚ)) = (partitionPeriods [("JAN", some 3), ("FEB", some 4)]).group
          .monthly ∧
      2 ≤ ([("JAN", (3 : ℚ)), ("FEB", 4)] : List (String × ℚ)).length ∧
      ∀ u, groupRank u < groupRank .monthly →
        ((partitionPeriods [("JAN", some (3 : ℚ)), ("FEB", some 4)]).group u).length < 2 :=
  (C6_theorem [("JAN", some 3), ("FEB", some 4)]).2.2 .monthly
    [("JAN", 3), ("FEB", 4)] (by with_unfolding_all decide)

/-- C7: the Trend Analyzer records, for each adjacent pair with both values
non-null and a nonzero previous value, the absolute change `curr - prev` and
the percentage change `(curr - prev)/prev * 100`; `total_change` is their
sum, `avg_change` their mean (0 when there are none), and the trend is
`increasing`/`decreasing`/`stable` exactly as `avg_change` is
positive/negative/zero.  On `[100, 110, 121]` the percentage changes are
`[10, 10]` and the trend is `increasing` (`sheet.py:2468-2500`). -/
theorem C7_theorem :
    (∀ data : List (Option ℚ),
      (calculate_movements data).absolute_changes =
          (data.zip data.tail).filterMap specAbsChange ∧
        (calculate_movements data).percentage_changes =
          (data.zip data.tail).filterMap specPctChange ∧
        (calculate_movements data).total_change =
          ((calculate_movements data).absolute_changes).sum ∧
        (calculate_movements data).avg_change =
          (if ((calculate_movements data).absolute_changes).length = 0 then 0
            else ((calculate_movements data).absolute_changes).sum /
              ((calculate_movements data).absolute_changes).length) ∧
        ((calculate_movements data).trend = "increasing" ↔
          0 < (calculate_movements data).avg_change) ∧
        ((calculate_movements data).trend = "decreasing" ↔
          (calculate_movements data).avg_change < 0) ∧
        ((calculate_movements data).trend = "stable" ↔
          (calculate_movements data).avg_change = 0)) ∧
      calculate_movements [some 100, some 110, some 121] =
        ⟨[10, 11], [10, 10], 21, 21 / 2, "increasing"⟩ := by
  constructor
  · intro data
    unfold calculate_movements
    dsimp only
    by_cases he : ((movementPairs data).map Prod.fst).isEmpty = true
    · rw [if_pos he]
      have hnil : (movementPairs data).map Prod.fst = [] := by
        simpa [List.isEmpty_iff] using he
      have hnil2 : movementPairs data = [] := by
        cases h : movementPairs data with
        | nil => rfl
        | cons a t => rw [h] at hnil; exact List.noConfusion hnil
      refine ⟨?_, ?_, by simp, by simp [hnil], ?_, ?_, ?_⟩
      · rw [← movementPairs_fst]
        simp [hnil2]
      · rw [← movementPairs_snd]
        simp [hnil2]
      · simp
      · simp
      · simp
    · rw [if_neg he]
      dsimp only
      refine ⟨by rw [← movementPairs_fst], by rw [← movementPairs_snd], rfl, ?_, ?_, ?_, ?_⟩
      · have : ((movementPairs data).map Prod.fst).length ≠ 0 := by
          simpa [List.isEmpty_iff, List.length_eq_zero] using he
        rw [if_neg this]
      · constructor
        · intro h
          split_ifs at h with hp hn
          · exact hp
          · exact absurd h (by simp)
          · exact absurd h (by simp)
        · intro h
          rw [if_pos h]
      · constructor
        · intro h
          split_ifs at h with hp hn
          · exact absurd h (by simp)
          · exact hn
          · exact absurd h (by simp)
        · intro h
          rw [if_neg (by exact fun hpos => absurd h (by exact not_lt_of_gt hpos)), if_pos h]
      · constructor
        · intro h
          split_ifs at h with hp hn
          · exact absurd h (by simp)
          · exact absurd h (by simp)
          · exact le_antisymm (not_lt.mp hp) (not_lt.mp hn)
        · intro h
          rw [if_neg (by rw [h]; exact lt_irrefl 0), if_neg (by rw [h]; exact lt_irrefl 0)]
  · with_unfolding_all decide

/-- C8 (counterexample): with exactly 30% of column 1's counted values being
metric names (3 of 10), the resolver does NOT prefer column 1 — the test is
the strict `> 0.3` (`sheet.py:1698`), so at exactly 30% it falls through
(here to the default column 0).  The claim's "at least 30%" / "exactly 30%
still preferred" is false. -/
theorem C8_counterexample :
    find_header_column 2
        (List.replicate 3 ["xyz", "revenue"] ++ List.replicate 7 ["xyz", "xyz"]) = 0 ∧
      countMetrics (colVals
        (List.replicate 3 ["xyz", "revenue"] ++ List.replicate 7 ["xyz", "xyz"]) 1) =
        (3, 10) := by
  exact ⟨by decide, by decide⟩

/-- C8 (amended): the resolver prefers column 1 exactly on the strict test —
whenever the DataFrame has more than one column, column 1 has at least one
metric-looking value, and STRICTLY more than 30% of its counted values look
like financial-metric names; at exactly 30% column 1 is not selected by this
rule. -/
theorem C8_theorem (ncols : ℕ) (rows : List (List String))
    (hn : 1 < ncols)
    (hmc : 0 < (countMetrics (colVals rows 1)).1)
    (hfrac : fracGt30 (countMetrics (colVals rows 1)).1
      (countMetrics (colVals rows 1)).2 = true) :
    find_header_column ncols rows = 1 := by
  unfold find_header_column
  rw [if_pos ⟨hn, hmc, hfrac⟩]

/-- Witness for C8: the hypotheses hold at 40% metric values in column 1. -/
theorem C8_witness :
    find_header_column 2
      (List.replicate 4 ["xyz", "revenue"] ++ List.replicate 6 ["xyz", "xyz"]) = 1 :=
  C8_theorem 2 (List.replicate 4 ["xyz", "revenue"] ++ List.replicate 6 ["xyz", "xyz"])
    (by decide) (by decide) (by decide)

end SheetPy
